import Mathlib

/-!
Shallow embedding of the attribute-synchronization logic of the
nimly-touch-pro-integration repository (custom_components/nimly_pro).

Each Home Assistant entity class mirrors one remote Zigbee attribute.
The per-entity update / push / write methods from lock.py, select.py,
number.py, sensor.py and binary_sensor.py are embedded as pure state
transformers.  Remote reads are modelled by `ReadResult`: either a
communication fault (`ZigbeeException` in the source) or a successful
response that may or may not contain the requested attribute id, mirroring
the `if ATTR in result[0]` checks in the source.  Remote writes are
modelled by `WriteOutcome` (success or fault).  `async_write_ha_state`
calls are recorded in a `published` flag.
-/

namespace NimlyPro

/-- Outcome of `cluster.read_attributes([attr])`: a `ZigbeeException`
(`fault`), or success carrying `some raw` when the requested attribute id
is a key of `result[0]` and `none` when it is absent. -/
inductive ReadResult (α : Type) where
  | fault : ReadResult α
  | success : Option α → ReadResult α
deriving DecidableEq, Repr

/-- Outcome of `cluster.write_attributes({...})` (or of the lock/unlock
cluster command): success, or a `ZigbeeException`. -/
inductive WriteOutcome where
  | ok : WriteOutcome
  | fault : WriteOutcome
deriving DecidableEq, Repr

/-- Result of one update/push step: the successor entity state plus
whether `async_write_ha_state` was called during the step. -/
structure StepOut (σ : Type) where
  state : σ
  published : Bool
deriving DecidableEq, Repr

/-- Result of one user-command (write) step: the successor entity state,
the raw payload handed to the remote write (`none` when no remote write
was attempted), and whether `async_write_ha_state` was called. -/
structure WriteResult (σ : Type) where
  state : σ
  wrote : Option Int
  published : Bool
deriving DecidableEq, Repr

/- ---------------------------------------------------------------------
const.py : attribute ids (the source stores them as hex strings and
converts with `int(s, 16)` at the comparison sites) and option lists.
--------------------------------------------------------------------- -/

def ATTR_LOCK_STATE : Nat := 0x0000
def ATTR_LED_SETTINGS : Nat := 0x0022
def ATTR_SOUND_VOLUME : Nat := 0x0024
def ATTR_DOOR_STATE : Nat := 0x0003
def ATTR_CURRENT_FILE_VERSION : Nat := 0x0002
def ATTR_AUTO_RELOCK_TIME : Nat := 0x0023

/-- `LED_SETTINGS_OPTIONS` from const.py: `list(LED_SETTINGS_OPTIONS.values())`. -/
def LED_SETTINGS_OPTIONS : List String := ["Off", "Low", "Medium", "High"]

/-- `SOUND_VOLUME_OPTIONS` from select.py: `list(SOUND_VOLUME_OPTIONS.values())`. -/
def SOUND_VOLUME_OPTIONS : List String := ["Off", "Low", "Medium", "High"]

/-- `DEFAULT_AUTO_RELOCK_TIME` from const.py. -/
def DEFAULT_AUTO_RELOCK_TIME : Int := 30

/- ---------------------------------------------------------------------
lock.py : NimlyProLock
--------------------------------------------------------------------- -/

/-- The host's `STATE_LOCKED` / `STATE_UNLOCKED` constants. -/
inductive HAState where
  | locked : HAState
  | unlocked : HAState
deriving DecidableEq, Repr

/-- Mutable fields of `NimlyProLock` that the synchronization logic
touches (`_state`, `_available`, `_last_event_type`, `_last_event_user`;
the wall-clock `_last_event_time` stamp is outside the embedding). -/
structure LockState where
  state : Option HAState
  available : Bool
  lastEventType : Option String
  lastEventUser : Option String
deriving DecidableEq, Repr

/-- `NimlyProLock.__init__`: `_state = None`, `_available = True`, no
event metadata. -/
def initLockState : LockState :=
  { state := none, available := true, lastEventType := none, lastEventUser := none }

/-- `NimlyProLock.is_locked`: `self._state == STATE_LOCKED`. -/
def isLocked (st : LockState) : Bool :=
  st.state == some HAState.locked

/-- The decode on lock.py line 173:
`STATE_LOCKED if lock_state == 1 else STATE_UNLOCKED`. -/
def decodeLockRaw (v : Int) : HAState :=
  if v = 1 then HAState.locked else HAState.unlocked

/-- `NimlyProLock._update_lock_state` (lock.py lines 167-183).  On a read
fault `_available = False` and `_state` is untouched; on success with the
attribute present `_state` is decoded and `_available = True`; on success
with the attribute absent nothing is touched.  `async_write_ha_state` runs
in every case.  (`_update_event_data` catches its own exceptions and
mutates none of these fields.) -/
def updateLockState (st : LockState) (r : ReadResult Int) : StepOut LockState :=
  match r with
  | ReadResult.fault => { state := { st with available := false }, published := true }
  | ReadResult.success none => { state := st, published := true }
  | ReadResult.success (some v) =>
      { state := { st with state := some (decodeLockRaw v), available := true },
        published := true }

/-- `NimlyProLock.async_lock` (lock.py lines 122-130): on success
`_state = STATE_LOCKED` and publish; on `ZigbeeException` only a log. -/
def asyncLock (st : LockState) (w : WriteOutcome) : StepOut LockState :=
  match w with
  | WriteOutcome.ok => { state := { st with state := some HAState.locked }, published := true }
  | WriteOutcome.fault => { state := st, published := false }

/-- `NimlyProLock.async_unlock` (lock.py lines 132-144): on success
`_state = STATE_UNLOCKED`, the RF-unlock event metadata is stamped, and
state is published; on `ZigbeeException` only a log. -/
def asyncUnlock (st : LockState) (w : WriteOutcome) : StepOut LockState :=
  match w with
  | WriteOutcome.ok =>
      { state := { st with state := some HAState.unlocked,
                           lastEventType := some "rf_unlock",
                           lastEventUser := some "Home Assistant" },
        published := true }
  | WriteOutcome.fault => { state := st, published := false }

/-- `NimlyProLock.attribute_updated` (lock.py lines 200-210): only the
lock-state attribute id is handled; raw `1` maps to locked, anything else
to unlocked; an auto-lock event is stamped on a push into the locked
state. -/
def lockAttributeUpdated (st : LockState) (attrid : Nat) (value : Int) : StepOut LockState :=
  if attrid = ATTR_LOCK_STATE then
    let st1 := { st with state := some (decodeLockRaw value) }
    let st2 :=
      if value = 1 ∧ st.lastEventType ≠ some "auto_lock" then
        { st1 with lastEventType := some "auto_lock" }
      else st1
    { state := st2, published := true }
  else { state := st, published := false }

/- ---------------------------------------------------------------------
select.py : NimlyProLEDSettingsSelect / NimlyProSoundVolumeSelect.
The two classes are textually identical except for the attribute id and
the (equal) option dictionaries, so the embedding is parametrised by the
option list and the attribute id.
--------------------------------------------------------------------- -/

/-- Mutable fields of a select entity: `_current_option_index` and
`_available`.  `__init__` sets the index to 0 and `_available = True`. -/
structure SelState where
  index : Nat
  available : Bool
deriving DecidableEq, Repr

/-- `__init__` of both select classes. -/
def initSelState : SelState := { index := 0, available := true }

/-- `current_option`: `self._attr_options[self._current_option_index]`
(Python indexing, undefined out of bounds). -/
def currentOption (opts : List String) (st : SelState) : Option String :=
  opts.get? st.index

/-- The selector decode direction: a raw index maps to the label at that
position of `_attr_options` (the indexing in `current_option`). -/
def decodeSelIndex (opts : List String) (i : Nat) : Option String :=
  opts.get? i

/-- The selector encode direction: a label maps to its first position in
`_attr_options` (the `self._attr_options.index(option)` lookup of
`async_select_option`). -/
def encodeSelLabel (opts : List String) (l : String) : Option Nat :=
  opts.findIdx? (fun o => o == l)

/-- The range guard on select.py lines 145 and 158:
`value is not None and 0 <= value < len(self._attr_options)` for an
already-present `value`. -/
def selInRange (opts : List String) (v : Int) : Prop :=
  0 ≤ v ∧ v < opts.length

instance (opts : List String) (v : Int) : Decidable (selInRange opts v) := by
  unfold selInRange; infer_instance

/-- `_update_led_settings` / `_update_sound_volume` (select.py lines
138-153 and 223-238).  A fault clears `_available`; a success with the
attribute present sets `_available = True` and applies the value only when
it is non-None and in `[0, len(options))`; an absent attribute touches
nothing.  Publish happens in every case. -/
def selectUpdate (opts : List String) (st : SelState) (r : ReadResult (Option Int)) :
    StepOut SelState :=
  match r with
  | ReadResult.fault => { state := { st with available := false }, published := true }
  | ReadResult.success none => { state := st, published := true }
  | ReadResult.success (some v) =>
      let st1 :=
        match v with
        | some n =>
            if selInRange opts n then { st with index := n.toNat, available := true }
            else { st with available := true }
        | none => { st with available := true }
      { state := st1, published := true }

/-- `attribute_updated` of the select classes (select.py lines 155-160 and
240-245): applies a pushed value only for the matching attribute id, only
when non-None and in range, publishing only when applied. -/
def selectAttributeUpdated (opts : List String) (attrId : Nat) (st : SelState)
    (attrid : Nat) (value : Option Int) : StepOut SelState :=
  if attrid = attrId then
    match value with
    | some n =>
        if selInRange opts n then { state := { st with index := n.toNat }, published := true }
        else { state := st, published := false }
    | none => { state := st, published := false }
  else { state := st, published := false }

/-- `async_select_option` (select.py lines 102-115 and 187-200).
`option_index = self._attr_options.index(option)` runs before the
`try` block, so an unknown label raises `ValueError` to the caller
(modelled as `Except.error`) with no remote write attempted.  For a known
label the raw index is written; on success the index is stored and state
published, on a `ZigbeeException` nothing changes and nothing is
published. -/
def asyncSelectOption (opts : List String) (st : SelState) (option : String)
    (w : WriteOutcome) : Except Unit (WriteResult SelState) :=
  match opts.findIdx? (fun o => o == option) with
  | none => Except.error ()
  | some i =>
      match w with
      | WriteOutcome.ok =>
          Except.ok { state := { st with index := i }, wrote := some (Int.ofNat i),
                      published := true }
      | WriteOutcome.fault =>
          Except.ok { state := st, wrote := some (Int.ofNat i), published := false }

/- ---------------------------------------------------------------------
number.py : NimlyProAutoRelockTime
--------------------------------------------------------------------- -/

/-- Mutable fields of `NimlyProAutoRelockTime`: `_attr_native_value` and
`_available`.  Values are integers throughout the source (the slider step
is 1 and the write path truncates with `int(value)`). -/
structure NumState where
  value : Int
  available : Bool
deriving DecidableEq, Repr

/-- `NimlyProAutoRelockTime.__init__`: value `DEFAULT_AUTO_RELOCK_TIME`,
available. -/
def initNumState : NumState := { value := DEFAULT_AUTO_RELOCK_TIME, available := true }

/-- `_attr_native_min_value` from number.py line 77. -/
def autoRelockMin : Int := 0

/-- `_attr_native_max_value` from number.py line 78. -/
def autoRelockMax : Int := 3600

/-- `async_set_native_value` (number.py lines 90-100): no domain
validation of any kind; the value is written remotely, and on success it
is stored and published; on a `ZigbeeException` nothing changes and
nothing is published. -/
def setNativeValue (st : NumState) (v : Int) (w : WriteOutcome) : WriteResult NumState :=
  match w with
  | WriteOutcome.ok => { state := { st with value := v }, wrote := some v, published := true }
  | WriteOutcome.fault => { state := st, wrote := some v, published := false }

/-- `_update_auto_relock_time` (number.py lines 123-138): a fault clears
`_available`; a success with the attribute present sets
`_available = True` and stores the value verbatim (no clamping) when it is
non-None; an absent attribute touches nothing.  Publish in every case. -/
def updateAutoRelockTime (st : NumState) (r : ReadResult (Option Int)) : StepOut NumState :=
  match r with
  | ReadResult.fault => { state := { st with available := false }, published := true }
  | ReadResult.success none => { state := st, published := true }
  | ReadResult.success (some v) =>
      let st1 :=
        match v with
        | some n => { st with value := n, available := true }
        | none => { st with available := true }
      { state := st1, published := true }

/-- `attribute_updated` of the number entity (number.py lines 140-145):
a pushed non-None value for the auto-relock attribute id is stored
verbatim and published. -/
def relockAttributeUpdated (st : NumState) (attrid : Nat) (value : Option Int) :
    StepOut NumState :=
  if attrid = ATTR_AUTO_RELOCK_TIME then
    match value with
    | some n => { state := { st with value := n }, published := true }
    | none => { state := st, published := false }
  else { state := st, published := false }

/- ---------------------------------------------------------------------
sensor.py : NimlyProFirmwareSensor
--------------------------------------------------------------------- -/

/-- A raw attribute value as the firmware decoder sees it: either a
Python int (`isinstance(version, int)`), or any other value represented by
its `str(...)` form. -/
inductive RawVal where
  | int : Nat → RawVal
  | other : String → RawVal
deriving DecidableEq, Repr

/-- The formatting on sensor.py lines 154-161: an int is decomposed into
four bytes with `>>` and `& 0xFF`, most significant first, joined with
dots; anything else becomes `str(version)`. -/
def formatFirmware (raw : RawVal) : String :=
  match raw with
  | RawVal.int v =>
      toString ((v >>> 24) &&& 0xFF) ++ "." ++ toString ((v >>> 16) &&& 0xFF) ++ "."
        ++ toString ((v >>> 8) &&& 0xFF) ++ "." ++ toString (v &&& 0xFF)
  | RawVal.other s => s

/-- The byte-decomposition string exactly as the specification writes it,
with shifts as division and masks as remainders. -/
def specFirmwareString (v : Nat) : String :=
  toString (v / 2 ^ 24 % 256) ++ "." ++ toString (v / 2 ^ 16 % 256) ++ "."
    ++ toString (v / 2 ^ 8 % 256) ++ "." ++ toString (v % 256)

/-- Mutable fields of `NimlyProFirmwareSensor`: `_attr_native_value`
(initialised to `"Unknown"`) and `_available`. -/
structure FwState where
  value : String
  available : Bool
deriving DecidableEq, Repr

/-- `NimlyProFirmwareSensor.__init__`. -/
def initFwState : FwState := { value := "Unknown", available := true }

/-- `_update_firmware_version` (sensor.py lines 146-168): a fault clears
`_available`; a success with the attribute present formats the value and
sets `_available = True`; an absent attribute touches nothing.  Publish in
every case. -/
def updateFirmwareVersion (st : FwState) (r : ReadResult RawVal) : StepOut FwState :=
  match r with
  | ReadResult.fault => { state := { st with available := false }, published := true }
  | ReadResult.success none => { state := st, published := true }
  | ReadResult.success (some raw) =>
      { state := { st with value := formatFirmware raw, available := true },
        published := true }

/- ---------------------------------------------------------------------
binary_sensor.py : NimlyProDoorStateSensor (read-only door sensor)
--------------------------------------------------------------------- -/

/-- `DOOR_STATE_OPEN` from binary_sensor.py. -/
def DOOR_STATE_OPEN : Int := 0

/-- Mutable fields of `NimlyProDoorStateSensor`: `_is_on` (None until the
first read) and `_available`. -/
structure DoorState where
  isOn : Option Bool
  available : Bool
deriving DecidableEq, Repr

/-- `_update_door_state` (binary_sensor.py lines 119-134). -/
def updateDoorState (st : DoorState) (r : ReadResult Int) : StepOut DoorState :=
  match r with
  | ReadResult.fault => { state := { st with available := false }, published := true }
  | ReadResult.success none => { state := st, published := true }
  | ReadResult.success (some v) =>
      { state := { st with isOn := some (v == DOOR_STATE_OPEN), available := true },
        published := true }

/- ---------------------------------------------------------------------
Theorems
--------------------------------------------------------------------- -/

/-- C1: a reconcile whose remote read raises a communication fault leaves
the current value unchanged and clears availability; a reconcile whose
read succeeds and returns the attribute decodes it, stores it (for the
selector: whenever the decoded index is in range), and sets availability;
and in every case the step concludes by publishing state to the host. -/
theorem claim_C1 (st : LockState) (v : Int) (r : ReadResult Int)
    (ss : SelState) (n : Int) (rs : ReadResult (Option Int)) :
    (updateLockState st ReadResult.fault).state.state = st.state
    ∧ (updateLockState st ReadResult.fault).state.available = false
    ∧ (updateLockState st (ReadResult.success (some v))).state.state = some (decodeLockRaw v)
    ∧ (updateLockState st (ReadResult.success (some v))).state.available = true
    ∧ (updateLockState st r).published = true
    ∧ (selectUpdate LED_SETTINGS_OPTIONS ss ReadResult.fault).state.index = ss.index
    ∧ (selectUpdate LED_SETTINGS_OPTIONS ss ReadResult.fault).state.available = false
    ∧ (selectUpdate LED_SETTINGS_OPTIONS ss (ReadResult.success (some (some n)))).state
        = (if selInRange LED_SETTINGS_OPTIONS n
           then { index := n.toNat, available := true }
           else { ss with available := true })
    ∧ (selectUpdate LED_SETTINGS_OPTIONS ss rs).published = true := by
  refine ⟨rfl, rfl, rfl, rfl, ?_, rfl, rfl, ?_, ?_⟩
  · cases r with
    | fault => rfl
    | success o => cases o <;> rfl
  · rfl
  · cases rs with
    | fault => rfl
    | success o =>
        cases o with
        | none => rfl
        | some v2 => cases v2 <;> rfl

/-- C2 counterexample: a `request_change` (here `async_select_option` with
the valid label "High") whose remote write raises a communication fault
leaves availability at `true`; the claim demands that a faulting write
demote availability to `false`. -/
theorem claim_C2_counterexample :
    asyncSelectOption LED_SETTINGS_OPTIONS { index := 2, available := true } "High"
        WriteOutcome.fault
      = Except.ok { state := { index := 2, available := true }, wrote := some (Int.ofNat 3),
                    published := false } := rfl

/-- C2 (amended): availability is updated only by read reconciliation —
it becomes false when a read raises a communication fault and true again
on the next read that succeeds with the attribute present; every write
path (select option, set value, lock, unlock) leaves availability
unchanged whether it succeeds or faults. -/
theorem claim_C2 (ss : SelState) (opt : String) (w : WriteOutcome) (ns : NumState)
    (v : Int) (wv : WriteOutcome) (ls : LockState) (wl : WriteOutcome) (n : Int) :
    Except.map (fun res => res.state.available)
        (asyncSelectOption LED_SETTINGS_OPTIONS ss opt w)
      = Except.map (fun _ => ss.available) (asyncSelectOption LED_SETTINGS_OPTIONS ss opt w)
    ∧ (setNativeValue ns v wv).state.available = ns.available
    ∧ (asyncLock ls wl).state.available = ls.available
    ∧ (asyncUnlock ls wl).state.available = ls.available
    ∧ (selectUpdate LED_SETTINGS_OPTIONS ss ReadResult.fault).state.available = false
    ∧ (selectUpdate LED_SETTINGS_OPTIONS ss
        (ReadResult.success (some (some n)))).state.available = true
    ∧ (updateLockState ls ReadResult.fault).state.available = false
    ∧ (updateLockState ls (ReadResult.success (some n))).state.available = true := by
  refine ⟨?_, ?_, ?_, ?_, rfl, ?_, rfl, rfl⟩
  · unfold asyncSelectOption
    cases List.findIdx? (fun o => o == opt) LED_SETTINGS_OPTIONS with
    | none => rfl
    | some i => cases w <;> rfl
  · cases wv <;> rfl
  · cases wl <;> rfl
  · cases wl <;> rfl
  · unfold selectUpdate
    by_cases h : selInRange LED_SETTINGS_OPTIONS n <;> simp [h]

/-- C3: a write that raises a communication fault leaves the current value
unchanged and publishes nothing; a successful write optimistically stores
the requested value and publishes it.  (The write paths in the source
contain no read call, so no confirming re-read occurs.) -/
theorem claim_C3 (ss : SelState) (opt : String) (i : Nat)
    (hfi : List.findIdx? (fun o => o == opt) LED_SETTINGS_OPTIONS = some i)
    (ns : NumState) (v : Int) (ls : LockState) :
    asyncSelectOption LED_SETTINGS_OPTIONS ss opt WriteOutcome.fault
      = Except.ok { state := ss, wrote := some (Int.ofNat i), published := false }
    ∧ asyncSelectOption LED_SETTINGS_OPTIONS ss opt WriteOutcome.ok
      = Except.ok { state := { ss with index := i }, wrote := some (Int.ofNat i),
                    published := true }
    ∧ setNativeValue ns v WriteOutcome.fault = { state := ns, wrote := some v, published := false }
    ∧ setNativeValue ns v WriteOutcome.ok
      = { state := { ns with value := v }, wrote := some v, published := true }
    ∧ asyncLock ls WriteOutcome.fault = { state := ls, published := false }
    ∧ asyncLock ls WriteOutcome.ok
      = { state := { ls with state := some HAState.locked }, published := true }
    ∧ asyncUnlock ls WriteOutcome.fault = { state := ls, published := false } := by
  refine ⟨?_, ?_, rfl, rfl, rfl, rfl, rfl⟩ <;> simp [asyncSelectOption, hfi]

theorem claim_C3_witness :
    List.findIdx? (fun o => o == "High") LED_SETTINGS_OPTIONS = some 3
    ∧ asyncSelectOption LED_SETTINGS_OPTIONS initSelState "High" WriteOutcome.fault
        = Except.ok { state := initSelState, wrote := some (Int.ofNat 3), published := false } :=
  ⟨rfl, (claim_C3 initSelState "High" 3 rfl initNumState 45 initLockState).1⟩

/-- C4: for every raw integer below 2^32 the firmware decode is the
four-byte dotted string written in the specification (most significant
byte first), and every non-integer raw value passes through as its string
form unchanged.  Determinism is immediate: `formatFirmware` is a pure
function. -/
theorem claim_C4 (v : Nat) (hv : v < 2 ^ 32) (s : String) :
    formatFirmware (RawVal.int v) = specFirmwareString v
    ∧ formatFirmware (RawVal.other s) = s := by
  have h8 : ∀ x : Nat, x &&& 255 = x % 256 := by
    intro x
    have h := Nat.and_pow_two_sub_one_eq_mod x 8
    norm_num at h
    exact h
  refine ⟨?_, rfl⟩
  simp only [formatFirmware, specFirmwareString, Nat.shiftRight_eq_div_pow, h8]

theorem claim_C4_witness :
    (0x01020304 : Nat) < 2 ^ 32
    ∧ formatFirmware (RawVal.int 0x01020304) = specFirmwareString 0x01020304 :=
  ⟨by norm_num, (claim_C4 0x01020304 (by norm_num) "abc").1⟩

/-- C5: for both selector entities, a raw index outside `[0, 3]` delivered
by a successful read or by a push notification leaves the current option
index unchanged (the embedded step functions are total, so nothing is
thrown), while an in-range index is applied. -/
theorem claim_C5 (ss : SelState) (n m : Int)
    (hn : ¬ selInRange LED_SETTINGS_OPTIONS n) (hm : selInRange LED_SETTINGS_OPTIONS m) :
    (selectUpdate LED_SETTINGS_OPTIONS ss
        (ReadResult.success (some (some n)))).state.index = ss.index
    ∧ (selectAttributeUpdated LED_SETTINGS_OPTIONS ATTR_LED_SETTINGS ss
        ATTR_LED_SETTINGS (some n)).state.index = ss.index
    ∧ (selectUpdate SOUND_VOLUME_OPTIONS ss
        (ReadResult.success (some (some n)))).state.index = ss.index
    ∧ (selectAttributeUpdated SOUND_VOLUME_OPTIONS ATTR_SOUND_VOLUME ss
        ATTR_SOUND_VOLUME (some n)).state.index = ss.index
    ∧ (selectUpdate LED_SETTINGS_OPTIONS ss
        (ReadResult.success (some (some m)))).state.index = m.toNat
    ∧ (selectAttributeUpdated LED_SETTINGS_OPTIONS ATTR_LED_SETTINGS ss
        ATTR_LED_SETTINGS (some m)).state.index = m.toNat := by
  have hn2 : ¬ selInRange SOUND_VOLUME_OPTIONS n := hn
  refine ⟨?_, ?_, ?_, ?_, ?_, ?_⟩ <;>
    simp [selectUpdate, selectAttributeUpdated, hn, hn2, hm]

theorem claim_C5_witness :
    ¬ selInRange LED_SETTINGS_OPTIONS 7
    ∧ selInRange LED_SETTINGS_OPTIONS 2
    ∧ (selectUpdate LED_SETTINGS_OPTIONS initSelState
        (ReadResult.success (some (some 7)))).state.index = initSelState.index :=
  ⟨by decide, by decide, (claim_C5 initSelState 7 2 (by decide) (by decide)).1⟩

/-- C6: for every index in the valid range `[0, 3]`, decoding it to the
label at that position of the fixed option list and encoding the label
back to its position (the `.index` lookup of `async_select_option`)
returns the original index, for both selector option lists. -/
theorem claim_C6 (i : Nat) (hi : i < 4) :
    Option.bind (decodeSelIndex LED_SETTINGS_OPTIONS i)
        (encodeSelLabel LED_SETTINGS_OPTIONS) = some i
    ∧ Option.bind (decodeSelIndex SOUND_VOLUME_OPTIONS i)
        (encodeSelLabel SOUND_VOLUME_OPTIONS) = some i
    ∧ currentOption LED_SETTINGS_OPTIONS { index := i, available := true }
        = decodeSelIndex LED_SETTINGS_OPTIONS i := by
  interval_cases i <;> exact ⟨rfl, rfl, rfl⟩

theorem claim_C6_witness :
    (3 : Nat) < 4
    ∧ Option.bind (decodeSelIndex LED_SETTINGS_OPTIONS 3)
        (encodeSelLabel LED_SETTINGS_OPTIONS) = some 3 :=
  ⟨by decide, (claim_C6 3 (by decide)).1⟩

/-- C7 counterexample: the auto-relock number entity performs no domain
validation — requesting 5000 seconds (outside the declared `[0, 3600]`
range) raises nothing, attempts the remote write with payload 5000, and on
success stores 5000 as the current value; the claim demands a validation
fault before any remote write. -/
theorem claim_C7_counterexample :
    setNativeValue initNumState 5000 WriteOutcome.ok
      = { state := { value := 5000, available := true }, wrote := some 5000,
          published := true }
    ∧ ¬ (5000 : Int) ≤ autoRelockMax := ⟨rfl, by decide⟩

/-- C7 (amended): for the selector entities a label outside the option
list raises an error (the `ValueError` of `list.index`) to the caller
before any remote write is attempted and the current value is untouched;
the auto-relock number entity performs no in-component validation and
hands every requested value, in range or not, to the remote write. -/
theorem claim_C7 (ss : SelState) (opt : String) (w : WriteOutcome)
    (hopt : List.findIdx? (fun o => o == opt) LED_SETTINGS_OPTIONS = none)
    (ns : NumState) (v : Int) (wv : WriteOutcome) :
    asyncSelectOption LED_SETTINGS_OPTIONS ss opt w = Except.error ()
    ∧ (setNativeValue ns v wv).wrote = some v := by
  constructor
  · simp [asyncSelectOption, hopt]
  · cases wv <;> rfl

theorem claim_C7_witness :
    List.findIdx? (fun o => o == "Blue") LED_SETTINGS_OPTIONS = none
    ∧ asyncSelectOption LED_SETTINGS_OPTIONS initSelState "Blue" WriteOutcome.ok
        = Except.error () :=
  ⟨rfl, (claim_C7 initSelState "Blue" WriteOutcome.ok rfl initNumState 45 WriteOutcome.ok).1⟩

/-- C8 counterexample: a read reconciliation that returns 5000 stores 5000
verbatim, outside the `[0, 3600]` range the claim says every applied value
is kept (or clamped) into. -/
theorem claim_C8_counterexample :
    updateAutoRelockTime initNumState (ReadResult.success (some (some 5000)))
      = { state := { value := 5000, available := true }, published := true }
    ∧ ¬ (5000 : Int) ≤ autoRelockMax := ⟨rfl, by decide⟩

/-- C8 (amended): the `[0, 3600]` bounds exist only as the entity's
declared min/max metadata; read reconciliation and push notifications
store the raw value verbatim with no clamping, so the stored value is not
kept within the range. -/
theorem claim_C8 (ns : NumState) (v : Int) :
    autoRelockMin = 0 ∧ autoRelockMax = 3600
    ∧ (updateAutoRelockTime ns (ReadResult.success (some (some v)))).state.value = v
    ∧ (relockAttributeUpdated ns ATTR_AUTO_RELOCK_TIME (some v)).state.value = v := by
  refine ⟨rfl, rfl, rfl, ?_⟩
  simp [relockAttributeUpdated]

/-- C9: a remote read that succeeds but whose response omits the requested
attribute id leaves the whole entity state (value and availability)
unchanged yet still publishes, for every entity kind; and the lock's
availability is promoted to true only when the attribute is present. -/
theorem claim_C9 (ls : LockState) (fs : FwState) (ss : SelState) (ns : NumState)
    (ds : DoorState) :
    updateLockState ls (ReadResult.success none) = { state := ls, published := true }
    ∧ updateFirmwareVersion fs (ReadResult.success none) = { state := fs, published := true }
    ∧ selectUpdate LED_SETTINGS_OPTIONS ss (ReadResult.success none)
        = { state := ss, published := true }
    ∧ updateAutoRelockTime ns (ReadResult.success none) = { state := ns, published := true }
    ∧ updateDoorState ds (ReadResult.success none) = { state := ds, published := true }
    ∧ (updateLockState ls ReadResult.fault).state.available = false
    ∧ ∀ v, (updateLockState ls (ReadResult.success (some v))).state.available = true :=
  ⟨rfl, rfl, rfl, rfl, rfl, rfl, fun _ => rfl⟩

/-- C10: the lock's stored state starts as `None`, where the `is_locked`
comparison against the locked constant yields `false` (the lock presents
as unlocked, not unknown); and in every state `is_locked` is true exactly
when the stored state equals the locked state. -/
theorem claim_C10 (st : LockState) :
    initLockState.state = none
    ∧ isLocked initLockState = false
    ∧ (isLocked st = true ↔ st.state = some HAState.locked) := by
  refine ⟨rfl, rfl, ?_⟩
  simp [isLocked]

end NimlyPro
